import Mathlib

/-! # simplerd: the streaming relay of `main.go`

A shallow embedding of `main.go`: the prompt catalog and handler table built by
`init`, the request router `call`, and the two provider adapters `gpt` and
`gemini`.

The handlers act on the outside world only through calls on the response
writer, the logger and the two provider SDKs.  A run of a handler is therefore
represented by the list of those calls, in program order, together with the
way the run ended (normal return, or a Go run-time panic).  What the SDKs and
the JSON decoder answer is an input of the model.
-/

set_option maxRecDepth 100000

namespace Simplerd

/-! ## Go values -/

/-- Go `[]byte`. -/
abbrev Bytes := List UInt8

/-- Go conversion `[]byte(s)` of a string `s`: its UTF-8 encoding. -/
def bytesOf (s : String) : Bytes := s.toUTF8.data.toList

/-- Go `map[string]V`, as the list of its bindings (at most one per key). -/
abbrev GoMap (V : Type) := List (String × V)

/-- The statement `m[k] = v`. -/
def mapSet {V : Type} (m : GoMap V) (k : String) (v : V) : GoMap V :=
  (k, v) :: m.filter (fun kv => kv.1 != k)

/-- The expression `m[k]`: the value bound to `k`, or the zero value of the
element type when `k` is not a key of `m`. -/
def mapIndex {V : Type} (zero : V) (m : GoMap V) (k : String) : V :=
  match m.lookup k with
  | some v => v
  | none => zero

/-- The struct `Prompt`, the decoded request body. -/
structure Prompt where
  Input : String
  Setting : String
deriving DecidableEq, Repr

/-- Constant `http.StatusBadRequest`. -/
def StatusBadRequest : Nat := 400

/-- Constant `http.StatusInternalServerError`. -/
def StatusInternalServerError : Nat := 500

/-! ## Observable calls -/

/-- The calls a handler makes on the response writer, the logger and the
provider SDKs. -/
inductive Event where
  /-- Call `log.Println(msg)`. -/
  | log (msg : String)
  /-- Call `http.Error(w, msg, code)`. -/
  | httpError (msg : String) (code : Nat)
  /-- Call `w.Header().Add(key, value)`. -/
  | headerAdd (key value : String)
  /-- Call `w.Write(chunk)`. -/
  | write (chunk : Bytes)
  /-- Call `f.Flush()`. -/
  | flush
  /-- Call `openai.NewChat(openai.WithModel(model))`. -/
  | newChat (model : String)
  /-- Call `llm.Call` with a system message and a human message. -/
  | llmCall (system human : String)
  /-- Call `genai.NewClient`. -/
  | newClient
  /-- Call `client.GenerativeModel(model).GenerateContentStream` with two text
  segments. -/
  | generateContentStream (model instruction input : String)
  /-- Call `client.Close()`. -/
  | clientClose
deriving DecidableEq, Repr

/-- How a run of a handler ends: it returns, or a run-time panic unwinds it
(call of a nil function value, failed type assertion). -/
inductive Outcome where
  | returned
  | panicked
deriving DecidableEq, Repr

/-- One run of a handler: the calls it made, in order, and how it ended. -/
structure Run where
  trace : List Event
  outcome : Outcome
deriving DecidableEq, Repr

/-- Sequencing of two pieces of a handler: the second piece runs only if the
first one returned. -/
def Run.andThen (a b : Run) : Run :=
  match a.outcome with
  | .panicked => a
  | .returned => ⟨a.trace ++ b.trace, b.outcome⟩

/-- The `http.ResponseWriter` handed to a handler.  The handlers use it
through `Header`, `Write` and `http.Error`, which are recorded in the trace,
and through the type assertion `w.(http.Flusher)`, whose success depends on
the dynamic type of the writer. -/
structure ResponseWriter where
  flusher : Bool
deriving DecidableEq, Repr

/-! ## The provider SDKs -/

/-- An `*openai.Chat`.  `Call` with a streaming function hands the streaming
function the chunks of the reply, in order, and then returns an error or none;
the result depends on the system and the human message. -/
structure Chat where
  Call : String → String → List Bytes × Option String

/-- A non-nil `genai.Part`: a `genai.Text` or a value of another dynamic type
(`genai.Blob`). -/
inductive Part where
  | Text (s : String)
  | Blob (mimeType : String) (data : Bytes)
deriving DecidableEq, Repr

/-- A `genai.Content`; an entry of `Parts` may be the nil interface value. -/
structure Content where
  Parts : List (Option Part)
deriving DecidableEq, Repr

/-- A `genai.Candidate`; the pointer `Content` may be nil. -/
structure Candidate where
  Content : Option Content
deriving DecidableEq, Repr

/-- A `genai.GenerateContentResponse`. -/
structure GenerateContentResponse where
  Candidates : List Candidate
deriving DecidableEq, Repr

/-- The error with which a `GenerateContentResponseIterator` stops yielding
responses: `iterator.Done`, or another error with its message. -/
inductive IterEnd where
  | Done
  | failed (msg : String)
deriving DecidableEq, Repr

/-- A `GenerateContentResponseIterator`: successive calls of `Next` return the
responses of `pending` with a nil error, and then `last`. -/
structure Iterator where
  pending : List GenerateContentResponse
  last : IterEnd
deriving DecidableEq, Repr

/-- A `*genai.Client`; the stream of the model `gemini-pro` depends on the two
text segments. -/
structure Client where
  GenerateContentStream : String → String → Iterator

/-- What the outside world answers during one request. -/
structure World where
  /-- Result of `openai.NewChat(openai.WithModel("gpt-3.5-turbo"))`. -/
  NewChat : Except String Chat
  /-- Result of `genai.NewClient`. -/
  NewClient : Except String Client

/-! ## `main.go` -/

/-- The variable `preamble`. -/
def preamble : String :=
  "A Lexile measure is defined as the numeric representation of an individual's reading ability or a text's readability (or difficulty), followed by an 'L' (Lexile). Lexile measures range from below 200L for beginning readers and text to 2000L for advanced readers. "

/-- The variable `simplerPrompt` as `init` leaves it: six assignments on an
empty map. -/
def simplerPrompt : GoMap String :=
  let m : GoMap String := []
  let m := mapSet m "L1" "Rewrite the given text to Lexile text measure of 190L such that a student between 6-8 years old and in grade 1-2 can understand"
  let m := mapSet m "L2" "Rewrite the given text to Lexile text measure of 520L such that a student between 8-10 years old and in grade 3-4 can understand."
  let m := mapSet m "L3" "Rewrite the given text to Lexile text measure of 830L such that a student between 10-12 years old and in grade 5-6 can understand."
  let m := mapSet m "L4" "Rewrite the given text to Lexile text measure of 970L such that a student between 12-14 years old and in grade 7-8 can understand."
  let m := mapSet m "L5" "Rewrite the given text to Lexile text measure of 1150L such that a student between 14-16 years old and in grade 9-10 can understand."
  let m := mapSet m "L6" "Rewrite the given text to Lexile text measure of 1185L such that a student between 16-18 years old and in grade 11-12 can understand."
  m

/-- The streaming function passed to `llm.Call` in `gpt`: write the chunk,
flush, return nil. -/
def streamingFunc (chunk : Bytes) : List Event :=
  [.write chunk, .flush]

/-- The calls made while `llm.Call` hands the chunks to the streaming function
one after the other. -/
def streamChunks : List Bytes → List Event
  | [] => []
  | chunk :: rest => streamingFunc chunk ++ streamChunks rest

/-- The function `gpt`. -/
def gpt (world : World) (prompt : Prompt) (w : ResponseWriter) : Run :=
  match world.NewChat with
  | .error err =>
    ⟨[.newChat "gpt-3.5-turbo",
      .log ("Cannot create openAI LLM: " ++ err),
      .httpError err StatusInternalServerError], .returned⟩
  | .ok llm =>
    if w.flusher then
      let system := preamble ++ mapIndex "" simplerPrompt prompt.Setting
      -- both results of `llm.Call` are dropped
      let reply := llm.Call system prompt.Input
      ⟨[.newChat "gpt-3.5-turbo",
        .headerAdd "mime-type" "text/event-stream",
        .llmCall system prompt.Input] ++ streamChunks reply.1, .returned⟩
    else
      -- `w.(http.Flusher)` panics
      ⟨[.newChat "gpt-3.5-turbo",
        .headerAdd "mime-type" "text/event-stream"], .panicked⟩

/-- The innermost loop of `gemini`, over `cand.Content.Parts`: nil parts are
skipped, a `genai.Text` is written and flushed, and the assertion
`part.(genai.Text)` panics on any other part. -/
def writeParts : List (Option Part) → Run
  | [] => ⟨[], .returned⟩
  | none :: rest => writeParts rest
  | some (.Text s) :: rest =>
    Run.andThen ⟨[.write (bytesOf s), .flush], .returned⟩ (writeParts rest)
  | some (.Blob _ _) :: _ => ⟨[], .panicked⟩

/-- The loop of `gemini` over `resp.Candidates`: a candidate with nil content
is skipped. -/
def writeCandidates : List Candidate → Run
  | [] => ⟨[], .returned⟩
  | cand :: rest =>
    match cand.Content with
    | none => writeCandidates rest
    | some content => Run.andThen (writeParts content.Parts) (writeCandidates rest)

/-- The outer `for` loop of `gemini`, by the results of the successive calls of
`iter.Next()`. -/
def geminiLoop (last : IterEnd) : List GenerateContentResponse → Run
  | [] =>
    match last with
    | .Done => ⟨[], .returned⟩
    | .failed err =>
      ⟨[.log ("cannot generate content: " ++ err),
        .httpError err StatusInternalServerError], .returned⟩
  | resp :: rest =>
    Run.andThen (writeCandidates resp.Candidates) (geminiLoop last rest)

/-- The function `gemini`.  The deferred `client.Close()` runs on every exit
once the client exists, a panic included. -/
def gemini (world : World) (prompt : Prompt) (w : ResponseWriter) : Run :=
  match world.NewClient with
  | .error err =>
    ⟨[.newClient,
      .log ("cannot create Gemini client: " ++ err),
      .httpError err StatusInternalServerError], .returned⟩
  | .ok client =>
    let instruction := preamble ++ mapIndex "" simplerPrompt prompt.Setting
    let iter := client.GenerateContentStream instruction prompt.Input
    let body : Run :=
      if w.flusher then geminiLoop iter.last iter.pending
      else ⟨[], .panicked⟩
    ⟨[.newClient,
      .generateContentStream "gemini-pro" instruction prompt.Input,
      .headerAdd "mime-type" "text/event-stream"] ++ body.trace ++ [.clientClose],
     body.outcome⟩

/-- The type of the values of the map `handlers`, with the world a handler
talks to made explicit. -/
abbrev Handler := World → Prompt → ResponseWriter → Run

/-- The variable `handlers` as `init` leaves it; the zero value of the element
type is the nil function, `none`. -/
def handlers : GoMap (Option Handler) :=
  let m : GoMap (Option Handler) := []
  let m := mapSet m "gpt" (some gpt)
  let m := mapSet m "gemini" (some gemini)
  m

/-- The `*http.Request` as `call` reads it: the result of decoding its body
into a `Prompt` (the error message when decoding fails) and the URL parameter
`llm`. -/
structure Request where
  Body : Except String Prompt
  llm : String

/-- The function `call`.  Calling the nil function value panics. -/
def call (world : World) (w : ResponseWriter) (r : Request) : Run :=
  match r.Body with
  | .error err => ⟨[.httpError err StatusBadRequest], .returned⟩
  | .ok prompt =>
    match mapIndex none handlers r.llm with
    | none => ⟨[], .panicked⟩
    | some handler => handler world prompt w

/-! ## Observations on a run -/

/-- The `Write` and `Flush` calls of a trace, in order: what a sink
instrumented to record writes and flushes sees. -/
def sinkOps : List Event → List Event
  | [] => []
  | .write chunk :: rest => .write chunk :: sinkOps rest
  | .flush :: rest => .flush :: sinkOps rest
  | _ :: rest => sinkOps rest

/-- The chunks written by a trace, in order. -/
def writtenChunks : List Event → List Bytes
  | [] => []
  | .write chunk :: rest => chunk :: writtenChunks rest
  | _ :: rest => writtenChunks rest

/-- The generation calls of a trace: `llm.Call` and `GenerateContentStream`. -/
def generationCalls : List Event → List Event
  | [] => []
  | .llmCall system human :: rest => .llmCall system human :: generationCalls rest
  | .generateContentStream model instruction input :: rest =>
    .generateContentStream model instruction input :: generationCalls rest
  | _ :: rest => generationCalls rest

/-- The error response of a trace: status and message of the first
`http.Error`, provided no `Write` or `Flush` came before it (either one commits
status 200, after which the status can no longer change). -/
def errorResponse : List Event → Option (Nat × String)
  | [] => none
  | .httpError msg code :: _ => some (code, msg)
  | .write _ :: _ => none
  | .flush :: _ => none
  | _ :: rest => errorResponse rest

/-- The value of the `Content-Type` header a trace adds before the header is
committed by the first `Write`, `Flush` or `http.Error`; header names are
case-insensitive. -/
def declaredContentType : List Event → Option String
  | [] => none
  | .headerAdd key value :: rest =>
    if key.data.map Char.toLower = "content-type".data then some value
    else declaredContentType rest
  | .write _ :: _ => none
  | .flush :: _ => none
  | .httpError _ _ :: _ => none
  | _ :: rest => declaredContentType rest

/-- The sequence `write(c1), flush, ..., write(cn), flush` for the chunks
`c1..cn`. -/
def writeFlushSeq (chunks : List Bytes) : List Event :=
  (chunks.map fun chunk => [Event.write chunk, Event.flush]).flatten

/-- The six level codes. -/
def levelCodes : List String := ["L1", "L2", "L3", "L4", "L5", "L6"]

/-- The characters after the first occurrence of `marker`. -/
def afterMarker (marker : List Char) : List Char → Option (List Char)
  | [] => if marker = [] then some [] else none
  | c :: cs =>
    if marker.isPrefixOf (c :: cs) then some ((c :: cs).drop marker.length)
    else afterMarker marker cs

/-- The value of a list of decimal digits, most significant first. -/
def digitsValue (ds : List Char) : Nat :=
  ds.foldl (fun acc d => 10 * acc + (d.toNat - '0'.toNat)) 0

/-- The Lexile target score an instruction names: the decimal number between
"Lexile text measure of " and the letter L. -/
def targetScore (instruction : String) : Option Nat :=
  match afterMarker "Lexile text measure of ".data instruction.data with
  | none => none
  | some rest =>
    let ds := rest.takeWhile Char.isDigit
    if ds ≠ [] ∧ (rest.drop ds.length).head? = some 'L' then some (digitsValue ds)
    else none

/-- The non-nil parts of all candidates of all responses, in
response-then-candidate-then-part order. -/
def contentParts (rs : List GenerateContentResponse) : List Part :=
  (rs.map fun resp =>
    (resp.Candidates.map fun cand =>
      match cand.Content with
      | none => []
      | some content => content.Parts.filterMap id).flatten).flatten

/-- The text payload of a part, if it is a `genai.Text`. -/
def Part.payload : Part → Option String
  | .Text s => some s
  | .Blob _ _ => none

/-- The calls `gemini` makes when `iter.Next()` returns an error: none on
`iterator.Done`, a log line and an error response otherwise. -/
def endTrace : IterEnd → List Event
  | .Done => []
  | .failed err =>
    [.log ("cannot generate content: " ++ err), .httpError err StatusInternalServerError]

/-- The kinds of call the loops of `gemini` make: writes, flushes, log lines
and error responses. -/
def loopEvent : Event → Bool
  | .write _ => true
  | .flush => true
  | .log _ => true
  | .httpError _ _ => true
  | _ => false

/-- No `Write` comes before the call
`w.Header().Add("mime-type", "text/event-stream")`. -/
def noWriteBeforeHeader : List Event → Bool
  | [] => true
  | .headerAdd key value :: rest =>
    if key = "mime-type" ∧ value = "text/event-stream" then true
    else noWriteBeforeHeader rest
  | .write _ :: _ => false
  | _ :: rest => noWriteBeforeHeader rest

/-! ## Sample providers -/

/-- A chat client that streams the chunks "Hel" and "lo" and reports no
error. -/
def helloChat : Chat :=
  ⟨fun _ _ => ([bytesOf "Hel", bytesOf "lo"], none)⟩

/-- A Gemini client whose stream yields one response, with the text parts
"Hel" and "lo" in one candidate, and then `iterator.Done`. -/
def helloClient : Client :=
  ⟨fun _ _ => ⟨[⟨[⟨some ⟨[some (.Text "Hel"), some (.Text "lo")]⟩⟩]⟩], .Done⟩⟩

/-- Both providers stream "Hel", "lo". -/
def helloWorld : World := ⟨.ok helloChat, .ok helloClient⟩

/-- A chat client whose `Call` fails before it has produced a chunk. -/
def failingChat : Chat :=
  ⟨fun _ _ => ([], some "connection reset")⟩

/-- A Gemini client whose stream fails before it has yielded a response. -/
def failingClient : Client :=
  ⟨fun _ _ => ⟨[], .failed "connection reset"⟩⟩

/-- Both providers fail during generation, before any chunk. -/
def failingWorld : World := ⟨.ok failingChat, .ok failingClient⟩

/-- A Gemini client whose stream yields the text part "Hel" and then fails. -/
def truncatingClient : Client :=
  ⟨fun _ _ => ⟨[⟨[⟨some ⟨[some (.Text "Hel")]⟩⟩]⟩], .failed "connection reset"⟩⟩

/-- The Gemini stream breaks off after one chunk. -/
def truncatingWorld : World := ⟨.ok helloChat, .ok truncatingClient⟩

/-- Neither provider client can be constructed. -/
def keylessWorld : World := ⟨.error "missing the OpenAI API key", .error "missing the Google API key"⟩

/-- A Gemini client whose stream yields one response with a `genai.Blob` part
followed by the text part "lo", and then `iterator.Done`. -/
def blobClient : Client :=
  ⟨fun _ _ => ⟨[⟨[⟨some ⟨[some (.Blob "image/png" []), some (.Text "lo")]⟩⟩]⟩], .Done⟩⟩

/-- The Gemini stream carries a part that is not a text. -/
def blobWorld : World := ⟨.ok helloChat, .ok blobClient⟩

/-! ## Lemmas on traces -/

theorem sinkOps_append (xs ys : List Event) :
    sinkOps (xs ++ ys) = sinkOps xs ++ sinkOps ys := by
  induction xs with
  | nil => rfl
  | cons x xs ih => cases x <;> simp [sinkOps, ih]

theorem writtenChunks_append (xs ys : List Event) :
    writtenChunks (xs ++ ys) = writtenChunks xs ++ writtenChunks ys := by
  induction xs with
  | nil => rfl
  | cons x xs ih => cases x <;> simp [writtenChunks, ih]

theorem generationCalls_append (xs ys : List Event) :
    generationCalls (xs ++ ys) = generationCalls xs ++ generationCalls ys := by
  induction xs with
  | nil => rfl
  | cons x xs ih => cases x <;> simp [generationCalls, ih]

theorem writeFlushSeq_nil : writeFlushSeq [] = [] := rfl

theorem writeFlushSeq_cons (c : Bytes) (cs : List Bytes) :
    writeFlushSeq (c :: cs) = .write c :: .flush :: writeFlushSeq cs := by
  simp [writeFlushSeq]

theorem writeFlushSeq_append (xs ys : List Bytes) :
    writeFlushSeq (xs ++ ys) = writeFlushSeq xs ++ writeFlushSeq ys := by
  simp [writeFlushSeq]

theorem streamChunks_eq (cs : List Bytes) : streamChunks cs = writeFlushSeq cs := by
  induction cs with
  | nil => rfl
  | cons c cs ih => simp [streamChunks, streamingFunc, writeFlushSeq_cons, ih]

theorem sinkOps_writeFlushSeq (cs : List Bytes) :
    sinkOps (writeFlushSeq cs) = writeFlushSeq cs := by
  induction cs with
  | nil => rfl
  | cons c cs ih => rw [writeFlushSeq_cons, sinkOps, sinkOps, ih]

theorem writtenChunks_writeFlushSeq (cs : List Bytes) :
    writtenChunks (writeFlushSeq cs) = cs := by
  induction cs with
  | nil => rfl
  | cons c cs ih =>
    rw [writeFlushSeq_cons]
    simp only [writtenChunks]
    rw [ih]

theorem generationCalls_writeFlushSeq (cs : List Bytes) :
    generationCalls (writeFlushSeq cs) = [] := by
  induction cs with
  | nil => rfl
  | cons c cs ih =>
    rw [writeFlushSeq_cons]
    simp only [generationCalls]
    rw [ih]

theorem errorResponse_writeFlushSeq (cs : List Bytes) (rest : List Event) (h : cs ≠ []) :
    errorResponse (writeFlushSeq cs ++ rest) = none := by
  cases cs with
  | nil => exact absurd rfl h
  | cons c cs => simp [writeFlushSeq_cons, errorResponse]

/-! ## Lemmas on the loops of `gemini` -/

theorem andThen_returned (xs : List Event) (b : Run) :
    Run.andThen ⟨xs, .returned⟩ b = ⟨xs ++ b.trace, b.outcome⟩ := rfl

theorem writeParts_text (ps : List (Option Part))
    (h : ∀ p ∈ ps.filterMap id, p.payload.isSome = true) :
    writeParts ps
      = ⟨writeFlushSeq (((ps.filterMap id).filterMap Part.payload).map bytesOf), .returned⟩ := by
  induction ps with
  | nil => rfl
  | cons p ps ih =>
    cases p with
    | none =>
      simp only [writeParts]
      exact ih (by simpa using h)
    | some p =>
      have hp : p.payload.isSome = true := h p (by simp)
      have hps : ∀ q ∈ ps.filterMap id, q.payload.isSome = true :=
        fun q hq => h q (by simp at hq ⊢; exact Or.inr hq)
      cases p with
      | Blob m d => simp [Part.payload] at hp
      | Text s =>
        simp only [writeParts, ih hps, andThen_returned]
        simp [Part.payload, writeFlushSeq_cons]

theorem writeCandidates_text (cands : List Candidate)
    (h : ∀ p ∈ contentParts [⟨cands⟩], p.payload.isSome = true) :
    writeCandidates cands
      = ⟨writeFlushSeq (((contentParts [⟨cands⟩]).filterMap Part.payload).map bytesOf),
          .returned⟩ := by
  induction cands with
  | nil => rfl
  | cons c cs ih =>
    have hcs : ∀ p ∈ contentParts [⟨cs⟩], p.payload.isSome = true := by
      intro p hp
      apply h p
      simp only [contentParts, List.map_cons, List.map_nil, List.flatten_cons, List.flatten_nil,
        List.append_nil, List.mem_append] at hp ⊢
      exact Or.inr hp
    rcases c with ⟨_ | content⟩
    · simp only [writeCandidates, ih hcs]
      simp [contentParts]
    · have hc : ∀ p ∈ content.Parts.filterMap id, p.payload.isSome = true := by
        intro p hp
        apply h p
        simp only [contentParts, List.map_cons, List.map_nil, List.flatten_cons, List.flatten_nil,
          List.append_nil, List.mem_append]
        exact Or.inl hp
      simp only [writeCandidates, writeParts_text _ hc, ih hcs, andThen_returned]
      simp [contentParts, writeFlushSeq_append]

theorem contentParts_cons (r : GenerateContentResponse) (rs : List GenerateContentResponse) :
    contentParts (r :: rs) = contentParts [r] ++ contentParts rs := by
  simp [contentParts]

theorem geminiLoop_text (last : IterEnd) (rs : List GenerateContentResponse)
    (h : ∀ p ∈ contentParts rs, p.payload.isSome = true) :
    geminiLoop last rs
      = ⟨writeFlushSeq (((contentParts rs).filterMap Part.payload).map bytesOf)
          ++ endTrace last, .returned⟩ := by
  induction rs with
  | nil => cases last <;> rfl
  | cons r rs ih =>
    obtain ⟨cands⟩ := r
    rw [contentParts_cons] at h
    have hr : ∀ p ∈ contentParts [⟨cands⟩], p.payload.isSome = true :=
      fun p hp => h p (List.mem_append_left _ hp)
    have hrs : ∀ p ∈ contentParts rs, p.payload.isSome = true :=
      fun p hp => h p (List.mem_append_right _ hp)
    simp only [geminiLoop, writeCandidates_text _ hr, ih hrs, andThen_returned]
    rw [contentParts_cons ⟨cands⟩ rs]
    simp [writeFlushSeq_append]

theorem payload_map_Text (texts : List String) :
    (texts.map Part.Text).filterMap Part.payload = texts := by
  induction texts with
  | nil => rfl
  | cons t ts ih => simp [Part.payload, ih]

theorem payload_isSome_of_map_Text (texts : List String) :
    ∀ p ∈ texts.map Part.Text, p.payload.isSome = true := by
  intro p hp
  obtain ⟨t, _, rfl⟩ := List.mem_map.mp hp
  rfl

theorem andThen_trace_all (p : Event → Bool) (a b : Run)
    (ha : a.trace.all p = true) (hb : b.trace.all p = true) :
    (Run.andThen a b).trace.all p = true := by
  unfold Run.andThen
  cases a.outcome <;> simp_all

theorem writeParts_loopEvent (ps : List (Option Part)) :
    (writeParts ps).trace.all loopEvent = true := by
  induction ps with
  | nil => rfl
  | cons p ps ih =>
    rcases p with _ | (s | ⟨m, d⟩)
    · simpa [writeParts] using ih
    · simp only [writeParts]
      exact andThen_trace_all _ _ _ (by rfl) ih
    · rfl

theorem writeCandidates_loopEvent (cands : List Candidate) :
    (writeCandidates cands).trace.all loopEvent = true := by
  induction cands with
  | nil => rfl
  | cons c cs ih =>
    rcases c with ⟨_ | content⟩
    · simpa [writeCandidates] using ih
    · simp only [writeCandidates]
      exact andThen_trace_all _ _ _ (writeParts_loopEvent _) ih

theorem geminiLoop_loopEvent (last : IterEnd) (rs : List GenerateContentResponse) :
    (geminiLoop last rs).trace.all loopEvent = true := by
  induction rs with
  | nil => cases last <;> rfl
  | cons r rs ih =>
    simp only [geminiLoop]
    exact andThen_trace_all _ _ _ (writeCandidates_loopEvent _) ih

theorem generationCalls_of_loopEvent (xs : List Event) (h : xs.all loopEvent = true) :
    generationCalls xs = [] := by
  induction xs with
  | nil => rfl
  | cons x xs ih =>
    simp only [List.all_cons, Bool.and_eq_true] at h
    cases x <;> simp_all [generationCalls, loopEvent]

theorem httpError_not_mem_writeFlushSeq (msg : String) (code : Nat) (cs : List Bytes) :
    Event.httpError msg code ∉ writeFlushSeq cs := by
  induction cs with
  | nil => simp [writeFlushSeq_nil]
  | cons c cs ih => simp [writeFlushSeq_cons, ih]

/-! ## Lemmas on the two maps -/

theorem mapIndex_handlers_other (s : String) (h1 : s ≠ "gpt") (h2 : s ≠ "gemini") :
    mapIndex none handlers s = none := by
  have e1 : (s == "gpt") = false := by simpa using h1
  have e2 : (s == "gemini") = false := by simpa using h2
  simp [mapIndex, handlers, mapSet, List.lookup, e1, e2]

theorem mapIndex_simplerPrompt_other (s : String) (h : s ∉ levelCodes) :
    mapIndex "" simplerPrompt s = "" := by
  simp only [levelCodes, List.mem_cons, List.mem_singleton, not_or, List.not_mem_nil,
    or_false] at h
  obtain ⟨h1, h2, h3, h4, h5, h6⟩ := h
  have e1 : (s == "L1") = false := by simpa using h1
  have e2 : (s == "L2") = false := by simpa using h2
  have e3 : (s == "L3") = false := by simpa using h3
  have e4 : (s == "L4") = false := by simpa using h4
  have e5 : (s == "L5") = false := by simpa using h5
  have e6 : (s == "L6") = false := by simpa using h6
  simp [mapIndex, simplerPrompt, mapSet, List.lookup, e1, e2, e3, e4, e5, e6]

/-! ## The adapters on a working provider -/

theorem gpt_ok (world : World) (prompt : Prompt) (w : ResponseWriter) (llm : Chat)
    (hchat : world.NewChat = .ok llm) (hw : w.flusher = true) :
    gpt world prompt w
      = ⟨[.newChat "gpt-3.5-turbo", .headerAdd "mime-type" "text/event-stream",
          .llmCall (preamble ++ mapIndex "" simplerPrompt prompt.Setting) prompt.Input]
          ++ writeFlushSeq
              (llm.Call (preamble ++ mapIndex "" simplerPrompt prompt.Setting) prompt.Input).1,
         .returned⟩ := by
  simp [gpt, hchat, hw, streamChunks_eq]

theorem gemini_ok (world : World) (prompt : Prompt) (w : ResponseWriter) (client : Client)
    (hclient : world.NewClient = .ok client) (hw : w.flusher = true) :
    gemini world prompt w
      = ⟨[.newClient,
          .generateContentStream "gemini-pro"
            (preamble ++ mapIndex "" simplerPrompt prompt.Setting) prompt.Input,
          .headerAdd "mime-type" "text/event-stream"]
          ++ (geminiLoop
                (client.GenerateContentStream
                  (preamble ++ mapIndex "" simplerPrompt prompt.Setting) prompt.Input).last
                (client.GenerateContentStream
                  (preamble ++ mapIndex "" simplerPrompt prompt.Setting) prompt.Input).pending).trace
          ++ [.clientClose],
         (geminiLoop
            (client.GenerateContentStream
              (preamble ++ mapIndex "" simplerPrompt prompt.Setting) prompt.Input).last
            (client.GenerateContentStream
              (preamble ++ mapIndex "" simplerPrompt prompt.Setting) prompt.Input).pending).outcome⟩ := by
  simp [gemini, hclient, hw]

theorem gpt_starts_with_newChat (world : World) (prompt : Prompt) (w : ResponseWriter) :
    Event.newChat "gpt-3.5-turbo" ∈ (gpt world prompt w).trace := by
  unfold gpt
  cases world.NewChat <;> cases w.flusher <;> simp

theorem gemini_starts_with_newClient (world : World) (prompt : Prompt) (w : ResponseWriter) :
    Event.newClient ∈ (gemini world prompt w).trace := by
  unfold gemini
  cases world.NewClient <;> simp

theorem gpt_noWriteBeforeHeader (world : World) (prompt : Prompt) (w : ResponseWriter) :
    noWriteBeforeHeader (gpt world prompt w).trace = true := by
  unfold gpt
  cases world.NewChat <;> cases w.flusher <;> simp [noWriteBeforeHeader]

theorem gemini_noWriteBeforeHeader (world : World) (prompt : Prompt) (w : ResponseWriter) :
    noWriteBeforeHeader (gemini world prompt w).trace = true := by
  unfold gemini
  cases world.NewClient <;> simp [noWriteBeforeHeader]

theorem declaredContentType_of_loopEvent (xs ys : List Event) (h : xs.all loopEvent = true)
    (hy : declaredContentType ys = none) :
    declaredContentType (xs ++ ys) = none := by
  induction xs with
  | nil => simpa using hy
  | cons x xs ih =>
    simp only [List.all_cons, Bool.and_eq_true] at h
    cases x <;> simp_all [declaredContentType, loopEvent]

theorem gpt_declaredContentType (world : World) (prompt : Prompt) (w : ResponseWriter) :
    declaredContentType (gpt world prompt w).trace = none := by
  unfold gpt
  rcases world.NewChat with e | llm
  · rfl
  · cases w.flusher
    · simp only [Bool.false_eq_true, if_false]
      rfl
    · simp only [if_true]
      have h1 : ("mime-type".data.map Char.toLower = "content-type".data) = False := by
        simp
      simp only [List.cons_append, List.nil_append, declaredContentType, h1, if_false]
      rw [streamChunks_eq]
      generalize (llm.Call _ _).1 = cs
      cases cs <;> simp [writeFlushSeq_cons, writeFlushSeq_nil, declaredContentType]

theorem gemini_declaredContentType (world : World) (prompt : Prompt) (w : ResponseWriter) :
    declaredContentType (gemini world prompt w).trace = none := by
  unfold gemini
  rcases world.NewClient with e | client
  · rfl
  · have h1 : ("mime-type".data.map Char.toLower = "content-type".data) = False := by
      simp
    simp only [List.cons_append, List.nil_append, declaredContentType, h1, if_false]
    cases w.flusher
    · rfl
    · simp only [if_true]
      exact declaredContentType_of_loopEvent _ _ (geminiLoop_loopEvent _ _) rfl

theorem gemini_error_before_chunks (world : World) (prompt : Prompt) (w : ResponseWriter)
    (client : Client) (err : String)
    (hclient : world.NewClient = .ok client) (hw : w.flusher = true)
    (hlast : (client.GenerateContentStream
      (preamble ++ mapIndex "" simplerPrompt prompt.Setting) prompt.Input).last = .failed err)
    (hparts : contentParts (client.GenerateContentStream
      (preamble ++ mapIndex "" simplerPrompt prompt.Setting) prompt.Input).pending = []) :
    errorResponse (gemini world prompt w).trace = some (StatusInternalServerError, err) := by
  rw [gemini_ok world prompt w client hclient hw, hlast,
    geminiLoop_text _ _ (by rw [hparts]; simp), hparts]
  rfl

/-! ## The claims -/

/-- C1: when the request body fails to decode into a `Prompt`, `call` answers
with `http.Error` carrying the decode error message and status 400, and
returns; this is its only call, whatever the path segment is, so that no
provider handler runs: every run of `gpt` calls `openai.NewChat` and every run
of `gemini` calls `genai.NewClient`, and neither call, nor a generation call,
occurs. -/
theorem call_decode_error_400 (world : World) (w : ResponseWriter) (err llm : String)
    (prompt : Prompt) :
    call world w ⟨.error err, llm⟩ = ⟨[.httpError err StatusBadRequest], .returned⟩
    ∧ errorResponse (call world w ⟨.error err, llm⟩).trace = some (400, err)
    ∧ Event.newChat "gpt-3.5-turbo" ∉ (call world w ⟨.error err, llm⟩).trace
    ∧ Event.newClient ∉ (call world w ⟨.error err, llm⟩).trace
    ∧ generationCalls (call world w ⟨.error err, llm⟩).trace = []
    ∧ Event.newChat "gpt-3.5-turbo" ∈ (gpt world prompt w).trace
    ∧ Event.newClient ∈ (gemini world prompt w).trace := by
  refine ⟨rfl, rfl, ?_, ?_, rfl, gpt_starts_with_newChat _ _ _,
    gemini_starts_with_newClient _ _ _⟩ <;> simp [call]

/-- C2: when the chat provider hands the streaming function of `gpt` the
chunks `c1..cn`, and when the Gemini iterator yields the text parts `t1..tn`
before `iterator.Done`, the writes and flushes of the adapter are exactly
`write(c1), flush, ..., write(cn), flush`: arrival order, one flush right after
each write, one write per chunk. -/
theorem relay_write_flush_sequence (world : World) (prompt : Prompt) (w : ResponseWriter)
    (llm : Chat) (client : Client) (texts : List String)
    (hchat : world.NewChat = .ok llm) (hclient : world.NewClient = .ok client)
    (hw : w.flusher = true)
    (hlast : (client.GenerateContentStream
      (preamble ++ mapIndex "" simplerPrompt prompt.Setting) prompt.Input).last = .Done)
    (hparts : contentParts (client.GenerateContentStream
      (preamble ++ mapIndex "" simplerPrompt prompt.Setting) prompt.Input).pending
        = texts.map Part.Text) :
    sinkOps (gpt world prompt w).trace
      = writeFlushSeq
          (llm.Call (preamble ++ mapIndex "" simplerPrompt prompt.Setting) prompt.Input).1
    ∧ sinkOps (gemini world prompt w).trace = writeFlushSeq (texts.map bytesOf) := by
  constructor
  · rw [gpt_ok world prompt w llm hchat hw]
    simp [sinkOps_append, sinkOps, sinkOps_writeFlushSeq]
  · rw [gemini_ok world prompt w client hclient hw, hlast,
      geminiLoop_text _ _ (by rw [hparts]; exact payload_isSome_of_map_Text texts), hparts,
      payload_map_Text]
    simp [sinkOps_append, sinkOps, sinkOps_writeFlushSeq, endTrace]

/-- Witness of C2: both providers deliver the chunks "Hel", "lo". -/
theorem relay_write_flush_sequence_witness :
    helloWorld.NewChat = .ok helloChat ∧ helloWorld.NewClient = .ok helloClient
    ∧ (⟨true⟩ : ResponseWriter).flusher = true
    ∧ (helloClient.GenerateContentStream
        (preamble ++ mapIndex "" simplerPrompt "L1") "Hello").last = .Done
    ∧ contentParts (helloClient.GenerateContentStream
        (preamble ++ mapIndex "" simplerPrompt "L1") "Hello").pending
          = ["Hel", "lo"].map Part.Text
    ∧ sinkOps (gpt helloWorld ⟨"Hello", "L1"⟩ ⟨true⟩).trace
        = [.write (bytesOf "Hel"), .flush, .write (bytesOf "lo"), .flush]
    ∧ sinkOps (gemini helloWorld ⟨"Hello", "L1"⟩ ⟨true⟩).trace
        = [.write (bytesOf "Hel"), .flush, .write (bytesOf "lo"), .flush] :=
  ⟨rfl, rfl, rfl, rfl, rfl,
    relay_write_flush_sequence helloWorld ⟨"Hello", "L1"⟩ ⟨true⟩ helloChat helloClient
      ["Hel", "lo"] rfl rfl rfl rfl rfl⟩

/-- C3: for each of the six level codes the catalog entry is not empty; the
instruction `preamble + simplerPrompt[code]`, which is what `gpt` and `gemini`
pass to their provider, starts with the preamble and names a numeric Lexile
target score; the six scores are 190, 520, 830, 970, 1150 and 1185, pairwise
distinct. -/
theorem catalog_levels (code : String) (hcode : code ∈ levelCodes)
    (world : World) (input : String) (w : ResponseWriter) (llm : Chat) (client : Client)
    (hchat : world.NewChat = .ok llm) (hclient : world.NewClient = .ok client)
    (hw : w.flusher = true) :
    mapIndex "" simplerPrompt code ≠ ""
    ∧ preamble.data <+: (preamble ++ mapIndex "" simplerPrompt code).data
    ∧ (∃ n, targetScore (preamble ++ mapIndex "" simplerPrompt code) = some n)
    ∧ levelCodes.map (fun c => targetScore (preamble ++ mapIndex "" simplerPrompt c))
        = [some 190, some 520, some 830, some 970, some 1150, some 1185]
    ∧ (levelCodes.map
        (fun c => targetScore (preamble ++ mapIndex "" simplerPrompt c))).Nodup
    ∧ generationCalls (gpt world ⟨input, code⟩ w).trace
        = [.llmCall (preamble ++ mapIndex "" simplerPrompt code) input]
    ∧ generationCalls (gemini world ⟨input, code⟩ w).trace
        = [.generateContentStream "gemini-pro"
            (preamble ++ mapIndex "" simplerPrompt code) input] := by
  have hscores : levelCodes.map (fun c => targetScore (preamble ++ mapIndex "" simplerPrompt c))
      = [some 190, some 520, some 830, some 970, some 1150, some 1185] := by rfl
  refine ⟨?_, ?_, ?_, hscores, ?_, ?_, ?_⟩
  · simp only [levelCodes, List.mem_cons, List.mem_singleton, List.not_mem_nil, or_false] at hcode
    rcases hcode with h | h | h | h | h | h <;> subst h <;> decide
  · rw [String.data_append]
    exact List.prefix_append _ _
  · simp only [levelCodes, List.mem_cons, List.mem_singleton, List.not_mem_nil, or_false] at hcode
    rcases hcode with h | h | h | h | h | h <;> subst h <;> exact ⟨_, by rfl⟩
  · rw [hscores]
    decide
  · rw [gpt_ok world ⟨input, code⟩ w llm hchat hw]
    simp [generationCalls_append, generationCalls, generationCalls_writeFlushSeq]
  · rw [gemini_ok world ⟨input, code⟩ w client hclient hw]
    simp [generationCalls_append, generationCalls,
      generationCalls_of_loopEvent _ (geminiLoop_loopEvent _ _)]

/-- Witness of C3: level L3 on providers that work. -/
theorem catalog_levels_witness :
    "L3" ∈ levelCodes ∧ helloWorld.NewChat = .ok helloChat
    ∧ helloWorld.NewClient = .ok helloClient ∧ (⟨true⟩ : ResponseWriter).flusher = true
    ∧ mapIndex "" simplerPrompt "L3" ≠ ""
    ∧ generationCalls (gpt helloWorld ⟨"Hello", "L3"⟩ ⟨true⟩).trace
        = [.llmCall (preamble ++ mapIndex "" simplerPrompt "L3") "Hello"] :=
  ⟨by decide, rfl, rfl, rfl,
    (catalog_levels "L3" (by decide) helloWorld "Hello" ⟨true⟩ helloChat helloClient
      rfl rfl rfl).1,
    (catalog_levels "L3" (by decide) helloWorld "Hello" ⟨true⟩ helloChat helloClient
      rfl rfl rfl).2.2.2.2.2.1⟩

/-- C4: for a setting that is none of L1..L6 (the empty string included) the
lookup `simplerPrompt[setting]` is the empty string, and the instruction `gpt`
and `gemini` pass to their provider is exactly the preamble. -/
theorem unknown_setting_gives_preamble (setting : String) (hsetting : setting ∉ levelCodes)
    (world : World) (input : String) (w : ResponseWriter) (llm : Chat) (client : Client)
    (hchat : world.NewChat = .ok llm) (hclient : world.NewClient = .ok client)
    (hw : w.flusher = true) :
    mapIndex "" simplerPrompt setting = ""
    ∧ generationCalls (gpt world ⟨input, setting⟩ w).trace = [.llmCall preamble input]
    ∧ generationCalls (gemini world ⟨input, setting⟩ w).trace
        = [.generateContentStream "gemini-pro" preamble input] := by
  have hentry := mapIndex_simplerPrompt_other setting hsetting
  refine ⟨hentry, ?_, ?_⟩
  · rw [gpt_ok world ⟨input, setting⟩ w llm hchat hw]
    simp [generationCalls_append, generationCalls, generationCalls_writeFlushSeq, hentry]
  · rw [gemini_ok world ⟨input, setting⟩ w client hclient hw]
    simp [generationCalls_append, generationCalls,
      generationCalls_of_loopEvent _ (geminiLoop_loopEvent _ _), hentry]

/-- Witness of C4: the empty setting. -/
theorem unknown_setting_gives_preamble_witness :
    "" ∉ levelCodes ∧ helloWorld.NewChat = .ok helloChat
    ∧ helloWorld.NewClient = .ok helloClient ∧ (⟨true⟩ : ResponseWriter).flusher = true
    ∧ mapIndex "" simplerPrompt "" = ""
    ∧ generationCalls (gpt helloWorld ⟨"Hello", ""⟩ ⟨true⟩).trace
        = [.llmCall preamble "Hello"]
    ∧ generationCalls (gemini helloWorld ⟨"Hello", ""⟩ ⟨true⟩).trace
        = [.generateContentStream "gemini-pro" preamble "Hello"] :=
  ⟨by decide, rfl, rfl, rfl,
    unknown_setting_gives_preamble "" (by decide) helloWorld "Hello" ⟨true⟩ helloChat
      helloClient rfl rfl rfl⟩

/-- C5, at the failing input: `llm.Call` fails before it has produced a chunk.
`gpt` drops the error `llm.Call` returns: its run is the three calls
`openai.NewChat`, `Header().Add`, `llm.Call`, with no `http.Error`, so no
status 500 and no error body.  On the same failure `gemini` answers with
status 500 and the error message. -/
theorem gpt_drops_generation_error :
    gpt failingWorld ⟨"Hello", "L1"⟩ ⟨true⟩
      = ⟨[.newChat "gpt-3.5-turbo", .headerAdd "mime-type" "text/event-stream",
          .llmCall (preamble ++ mapIndex "" simplerPrompt "L1") "Hello"], .returned⟩
    ∧ errorResponse (gpt failingWorld ⟨"Hello", "L1"⟩ ⟨true⟩).trace = none
    ∧ (∀ msg code, Event.httpError msg code ∉ (gpt failingWorld ⟨"Hello", "L1"⟩ ⟨true⟩).trace)
    ∧ errorResponse (gemini failingWorld ⟨"Hello", "L1"⟩ ⟨true⟩).trace
        = some (500, "connection reset") := by
  refine ⟨rfl, rfl, ?_, rfl⟩
  intro msg code h
  simp [gpt, failingWorld, failingChat, streamChunks] at h

/-- C6: when the Gemini iterator yields responses carrying the text parts
`t1..tk` (k >= 1) and then fails with an error other than `iterator.Done`,
every one of them has been written and flushed, in order, before the error is
logged and answered and before the handler returns; the error response comes
after the last flush and can no longer set the status. -/
theorem gemini_chunks_before_error (world : World) (prompt : Prompt) (w : ResponseWriter)
    (client : Client) (texts : List String) (err : String)
    (hclient : world.NewClient = .ok client) (hw : w.flusher = true)
    (hlast : (client.GenerateContentStream
      (preamble ++ mapIndex "" simplerPrompt prompt.Setting) prompt.Input).last = .failed err)
    (hparts : contentParts (client.GenerateContentStream
      (preamble ++ mapIndex "" simplerPrompt prompt.Setting) prompt.Input).pending
        = texts.map Part.Text)
    (hk : texts ≠ []) :
    gemini world prompt w
      = ⟨[.newClient,
          .generateContentStream "gemini-pro"
            (preamble ++ mapIndex "" simplerPrompt prompt.Setting) prompt.Input,
          .headerAdd "mime-type" "text/event-stream"]
          ++ writeFlushSeq (texts.map bytesOf)
          ++ [.log ("cannot generate content: " ++ err),
              .httpError err StatusInternalServerError,
              .clientClose],
         .returned⟩
    ∧ writtenChunks (gemini world prompt w).trace = texts.map bytesOf
    ∧ sinkOps (gemini world prompt w).trace = writeFlushSeq (texts.map bytesOf)
    ∧ errorResponse (gemini world prompt w).trace = none := by
  have hrun : gemini world prompt w
      = ⟨[.newClient,
          .generateContentStream "gemini-pro"
            (preamble ++ mapIndex "" simplerPrompt prompt.Setting) prompt.Input,
          .headerAdd "mime-type" "text/event-stream"]
          ++ writeFlushSeq (texts.map bytesOf)
          ++ [.log ("cannot generate content: " ++ err),
              .httpError err StatusInternalServerError,
              .clientClose],
         .returned⟩ := by
    rw [gemini_ok world prompt w client hclient hw, hlast,
      geminiLoop_text _ _ (by rw [hparts]; exact payload_isSome_of_map_Text texts), hparts,
      payload_map_Text]
    simp [endTrace]
  refine ⟨hrun, ?_, ?_, ?_⟩
  · rw [hrun]
    simp [writtenChunks_append, writtenChunks, writtenChunks_writeFlushSeq]
  · rw [hrun]
    simp [sinkOps_append, sinkOps, sinkOps_writeFlushSeq]
  · rw [hrun]
    have hne : texts.map bytesOf ≠ [] := by simpa using hk
    simp only [List.cons_append, List.nil_append, errorResponse, List.append_assoc]
    exact errorResponse_writeFlushSeq _ _ hne

/-- Witness of C6: one chunk, then an error. -/
theorem gemini_chunks_before_error_witness :
    truncatingWorld.NewClient = .ok truncatingClient
    ∧ (⟨true⟩ : ResponseWriter).flusher = true
    ∧ (truncatingClient.GenerateContentStream
        (preamble ++ mapIndex "" simplerPrompt "L1") "Hello").last = .failed "connection reset"
    ∧ contentParts (truncatingClient.GenerateContentStream
        (preamble ++ mapIndex "" simplerPrompt "L1") "Hello").pending = ["Hel"].map Part.Text
    ∧ ["Hel"] ≠ []
    ∧ writtenChunks (gemini truncatingWorld ⟨"Hello", "L1"⟩ ⟨true⟩).trace = [bytesOf "Hel"] :=
  ⟨rfl, rfl, rfl, rfl, by decide,
    (gemini_chunks_before_error truncatingWorld ⟨"Hello", "L1"⟩ ⟨true⟩ truncatingClient
      ["Hel"] "connection reset" rfl rfl rfl rfl (by decide)).2.1⟩

/-- C7: when construction of the provider client fails (`openai.NewChat` in
`gpt`, `genai.NewClient` in `gemini`), the adapter logs the error, answers with
status 500 and the error message, and returns: one construction call, no
write, no flush, no generation call. -/
theorem client_construction_error_500 (world : World) (prompt : Prompt) (w : ResponseWriter)
    (e1 e2 : String)
    (hchat : world.NewChat = .error e1) (hclient : world.NewClient = .error e2) :
    gpt world prompt w
      = ⟨[.newChat "gpt-3.5-turbo", .log ("Cannot create openAI LLM: " ++ e1),
          .httpError e1 StatusInternalServerError], .returned⟩
    ∧ gemini world prompt w
      = ⟨[.newClient, .log ("cannot create Gemini client: " ++ e2),
          .httpError e2 StatusInternalServerError], .returned⟩
    ∧ errorResponse (gpt world prompt w).trace = some (500, e1)
    ∧ errorResponse (gemini world prompt w).trace = some (500, e2)
    ∧ sinkOps (gpt world prompt w).trace = []
    ∧ sinkOps (gemini world prompt w).trace = []
    ∧ generationCalls (gpt world prompt w).trace = []
    ∧ generationCalls (gemini world prompt w).trace = [] := by
  have hgpt : gpt world prompt w
      = ⟨[.newChat "gpt-3.5-turbo", .log ("Cannot create openAI LLM: " ++ e1),
          .httpError e1 StatusInternalServerError], .returned⟩ := by
    simp [gpt, hchat]
  have hgemini : gemini world prompt w
      = ⟨[.newClient, .log ("cannot create Gemini client: " ++ e2),
          .httpError e2 StatusInternalServerError], .returned⟩ := by
    simp [gemini, hclient]
  refine ⟨hgpt, hgemini, ?_, ?_, ?_, ?_, ?_, ?_⟩
  all_goals first | (rw [hgpt]; rfl) | (rw [hgemini]; rfl)

/-- Witness of C7: both API keys are missing. -/
theorem client_construction_error_500_witness :
    keylessWorld.NewChat = .error "missing the OpenAI API key"
    ∧ keylessWorld.NewClient = .error "missing the Google API key"
    ∧ errorResponse (gpt keylessWorld ⟨"Hello", "L1"⟩ ⟨true⟩).trace
        = some (500, "missing the OpenAI API key")
    ∧ errorResponse (gemini keylessWorld ⟨"Hello", "L1"⟩ ⟨true⟩).trace
        = some (500, "missing the Google API key") :=
  ⟨rfl, rfl,
    (client_construction_error_500 keylessWorld ⟨"Hello", "L1"⟩ ⟨true⟩ _ _ rfl rfl).2.2.1,
    (client_construction_error_500 keylessWorld ⟨"Hello", "L1"⟩ ⟨true⟩ _ _ rfl rfl).2.2.2.1⟩

/-- C8: after `init` the table `handlers` holds a handler for a path segment
exactly when the segment is "gpt" or "gemini", bound to `gpt` and `gemini`; for
any other segment `s` the lookup `handlers[s]` is the nil function, and `call`
with a body that decodes calls it and panics without a single call on the
response writer: no response, no 404. -/
theorem unknown_provider_panics (s : String) (hgpt : s ≠ "gpt") (hgemini : s ≠ "gemini")
    (world : World) (w : ResponseWriter) (prompt : Prompt) :
    (∀ t, (mapIndex none handlers t).isSome = true ↔ (t = "gpt" ∨ t = "gemini"))
    ∧ mapIndex none handlers "gpt" = some gpt
    ∧ mapIndex none handlers "gemini" = some gemini
    ∧ mapIndex none handlers s = none
    ∧ call world w ⟨.ok prompt, s⟩ = ⟨[], .panicked⟩
    ∧ errorResponse (call world w ⟨.ok prompt, s⟩).trace = none := by
  have hnone := mapIndex_handlers_other s hgpt hgemini
  have hcall : call world w ⟨.ok prompt, s⟩ = ⟨[], .panicked⟩ := by
    simp [call, hnone]
  refine ⟨?_, rfl, rfl, hnone, hcall, by rw [hcall]; rfl⟩
  intro t
  constructor
  · intro h
    by_contra hne
    rw [not_or] at hne
    rw [mapIndex_handlers_other t hne.1 hne.2] at h
    exact absurd h (by simp)
  · rintro (rfl | rfl) <;> rfl

/-- Witness of C8: the path segment "claude". -/
theorem unknown_provider_panics_witness :
    "claude" ≠ "gpt" ∧ "claude" ≠ "gemini"
    ∧ call helloWorld ⟨true⟩ ⟨.ok ⟨"Hello", "L1"⟩, "claude"⟩ = ⟨[], .panicked⟩ :=
  ⟨by decide, by decide,
    (unknown_provider_panics "claude" (by decide) (by decide) helloWorld ⟨true⟩
      ⟨"Hello", "L1"⟩).2.2.2.2.1⟩

/-- C9, at the failing input: both providers stream "Hel", "lo".  The one
header the adapters add is named `mime-type`; no `Content-Type` is declared
before the first write commits the header, so `text/event-stream` is not the
content type declared for the response.  The header call does come before the
first write. -/
theorem streaming_content_type_not_declared :
    gpt helloWorld ⟨"Hello", "L1"⟩ ⟨true⟩
      = ⟨[.newChat "gpt-3.5-turbo", .headerAdd "mime-type" "text/event-stream",
          .llmCall (preamble ++ mapIndex "" simplerPrompt "L1") "Hello",
          .write (bytesOf "Hel"), .flush, .write (bytesOf "lo"), .flush], .returned⟩
    ∧ gemini helloWorld ⟨"Hello", "L1"⟩ ⟨true⟩
      = ⟨[.newClient,
          .generateContentStream "gemini-pro"
            (preamble ++ mapIndex "" simplerPrompt "L1") "Hello",
          .headerAdd "mime-type" "text/event-stream",
          .write (bytesOf "Hel"), .flush, .write (bytesOf "lo"), .flush,
          .clientClose], .returned⟩
    ∧ declaredContentType (gpt helloWorld ⟨"Hello", "L1"⟩ ⟨true⟩).trace = none
    ∧ declaredContentType (gemini helloWorld ⟨"Hello", "L1"⟩ ⟨true⟩).trace = none
    ∧ declaredContentType (gpt helloWorld ⟨"Hello", "L1"⟩ ⟨true⟩).trace
        ≠ some "text/event-stream"
    ∧ noWriteBeforeHeader (gpt helloWorld ⟨"Hello", "L1"⟩ ⟨true⟩).trace = true
    ∧ noWriteBeforeHeader (gemini helloWorld ⟨"Hello", "L1"⟩ ⟨true⟩).trace = true := by
  refine ⟨rfl, rfl, gpt_declaredContentType _ _ _, gemini_declaredContentType _ _ _, ?_,
    gpt_noWriteBeforeHeader _ _ _, gemini_noWriteBeforeHeader _ _ _⟩
  rw [gpt_declaredContentType]
  simp

/-- C10 as stated fails: the stream yields one response whose candidate has a
`genai.Blob` part followed by the text part "lo", then `iterator.Done`.  The
assertion `part.(genai.Text)` panics on the first part, and the text "lo" is
never written. -/
theorem gemini_non_text_part_panics :
    contentParts (blobClient.GenerateContentStream
      (preamble ++ mapIndex "" simplerPrompt "L1") "Hello").pending
        = [.Blob "image/png" [], .Text "lo"]
    ∧ gemini blobWorld ⟨"Hello", "L1"⟩ ⟨true⟩
      = ⟨[.newClient,
          .generateContentStream "gemini-pro"
            (preamble ++ mapIndex "" simplerPrompt "L1") "Hello",
          .headerAdd "mime-type" "text/event-stream",
          .clientClose], .panicked⟩
    ∧ writtenChunks (gemini blobWorld ⟨"Hello", "L1"⟩ ⟨true⟩).trace = []
    ∧ ¬ (writtenChunks (gemini blobWorld ⟨"Hello", "L1"⟩ ⟨true⟩).trace
          = ((contentParts (blobClient.GenerateContentStream
              (preamble ++ mapIndex "" simplerPrompt "L1") "Hello").pending).filterMap
                Part.payload).map bytesOf) := by
  refine ⟨rfl, rfl, rfl, ?_⟩
  intro h
  have hwritten : writtenChunks (gemini blobWorld ⟨"Hello", "L1"⟩ ⟨true⟩).trace = [] := rfl
  have hpayloads : ((contentParts (blobClient.GenerateContentStream
      (preamble ++ mapIndex "" simplerPrompt "L1") "Hello").pending).filterMap
        Part.payload).map bytesOf = [bytesOf "lo"] := rfl
  rw [hwritten, hpayloads] at h
  exact List.noConfusion h

/-- C10, amended: for every sequence of responses the Gemini iterator yields
before `iterator.Done` in which every content part is a text part, the chunks
`gemini` writes are exactly the text payloads of every content part of every
candidate of every response, one chunk per part, each flushed, in
response-then-candidate-then-part order; on `iterator.Done` it writes nothing
further, closes the client and returns, with no error response. -/
theorem gemini_done_writes_text_parts (world : World) (prompt : Prompt) (w : ResponseWriter)
    (client : Client)
    (hclient : world.NewClient = .ok client) (hw : w.flusher = true)
    (hlast : (client.GenerateContentStream
      (preamble ++ mapIndex "" simplerPrompt prompt.Setting) prompt.Input).last = .Done)
    (htext : ∀ p ∈ contentParts (client.GenerateContentStream
      (preamble ++ mapIndex "" simplerPrompt prompt.Setting) prompt.Input).pending,
        p.payload.isSome = true) :
    gemini world prompt w
      = ⟨[.newClient,
          .generateContentStream "gemini-pro"
            (preamble ++ mapIndex "" simplerPrompt prompt.Setting) prompt.Input,
          .headerAdd "mime-type" "text/event-stream"]
          ++ writeFlushSeq (((contentParts (client.GenerateContentStream
              (preamble ++ mapIndex "" simplerPrompt prompt.Setting)
                prompt.Input).pending).filterMap Part.payload).map bytesOf)
          ++ [.clientClose],
         .returned⟩
    ∧ writtenChunks (gemini world prompt w).trace
        = ((contentParts (client.GenerateContentStream
            (preamble ++ mapIndex "" simplerPrompt prompt.Setting)
              prompt.Input).pending).filterMap Part.payload).map bytesOf
    ∧ (∀ msg code, Event.httpError msg code ∉ (gemini world prompt w).trace) := by
  have hrun : gemini world prompt w
      = ⟨[.newClient,
          .generateContentStream "gemini-pro"
            (preamble ++ mapIndex "" simplerPrompt prompt.Setting) prompt.Input,
          .headerAdd "mime-type" "text/event-stream"]
          ++ writeFlushSeq (((contentParts (client.GenerateContentStream
              (preamble ++ mapIndex "" simplerPrompt prompt.Setting)
                prompt.Input).pending).filterMap Part.payload).map bytesOf)
          ++ [.clientClose],
         .returned⟩ := by
    rw [gemini_ok world prompt w client hclient hw, hlast, geminiLoop_text _ _ htext]
    simp [endTrace]
  refine ⟨hrun, ?_, ?_⟩
  · rw [hrun]
    simp [writtenChunks_append, writtenChunks, writtenChunks_writeFlushSeq]
  · intro msg code hmem
    rw [hrun] at hmem
    have hgen := httpError_not_mem_writeFlushSeq msg code
      (((contentParts (client.GenerateContentStream
        (preamble ++ mapIndex "" simplerPrompt prompt.Setting)
          prompt.Input).pending).filterMap Part.payload).map bytesOf)
    simp at hmem
    exact hgen hmem

/-- Witness of C10, amended: the text parts "Hel", "lo". -/
theorem gemini_done_writes_text_parts_witness :
    helloWorld.NewClient = .ok helloClient ∧ (⟨true⟩ : ResponseWriter).flusher = true
    ∧ (helloClient.GenerateContentStream
        (preamble ++ mapIndex "" simplerPrompt "L1") "Hello").last = .Done
    ∧ (∀ p ∈ contentParts (helloClient.GenerateContentStream
        (preamble ++ mapIndex "" simplerPrompt "L1") "Hello").pending,
          p.payload.isSome = true)
    ∧ writtenChunks (gemini helloWorld ⟨"Hello", "L1"⟩ ⟨true⟩).trace
        = [bytesOf "Hel", bytesOf "lo"] :=
  ⟨rfl, rfl, rfl, by decide,
    (gemini_done_writes_text_parts helloWorld ⟨"Hello", "L1"⟩ ⟨true⟩ helloClient rfl rfl rfl
      (by decide)).2.1⟩

end Simplerd
